import Mathlib

/-!
Verification of the redis rate-limit engine (`redis_rate_limit/__init__.py`).

The Redis store is modelled for a single bucket key as a `Store`: the
counter value at the key (`none` = key absent) and the TTL armed on the key
(`none` = no expiry set).  The Lua `INCREMENT_SCRIPT`, `get_usage`,
`has_been_reached`, `increment_usage` and `get_wait_time` are shallowly
embedded as pure functions over this state; Python float arithmetic in
`get_wait_time` is modelled over `ℚ`, and Python's `ZeroDivisionError`
is modelled by returning `none`.
-/

/-- State of the single rate-limit key in the store: `counter` is the value
at the key (`none` when the key is absent; Redis INCRBY treats an absent key
as 0), `ttl` is the expiry armed on the key in seconds (`none` when no
expiry is set). -/
structure Store where
  counter : Option Int
  ttl : Option Int
deriving DecidableEq, Repr

/-- A store with no key: the bucket is absent. -/
def emptyStore : Store := ⟨none, none⟩

/-- Result of one execution of the Lua `INCREMENT_SCRIPT`: the value returned
by the script, whether this execution called `expire` (armed the TTL), and
the store afterwards. -/
structure ScriptResult where
  current : Int
  armedTTL : Bool
  store : Store
deriving DecidableEq, Repr

/-- The Lua `INCREMENT_SCRIPT`:
`current = INCRBY(key, amount); if current == amount then EXPIRE(key, expire); return current`.
INCRBY on an absent key starts from 0 and always leaves the key present. -/
def incrementScript (expire amount : Int) (s : Store) : ScriptResult :=
  let current := s.counter.getD 0 + amount
  if current = amount then
    { current := current, armedTTL := true
      store := { counter := some current, ttl := some expire } }
  else
    { current := current, armedTTL := false
      store := { counter := some current, ttl := s.ttl } }

/-- `RateLimit.get_usage`: `int(redis.get(key) or 0)` — the counter, or 0 when
the key is absent. -/
def get_usage (s : Store) : Int :=
  s.counter.getD 0

/-- `RateLimit.has_been_reached`: `get_usage() >= max_requests`. -/
def has_been_reached (maxRequests : Int) (s : Store) : Bool :=
  decide (maxRequests ≤ get_usage s)

/-- Outcome of `RateLimit.increment_usage`: normal return of the new usage,
or one of the two exceptions raised by the method. -/
inductive IncrementResult where
  | ok (usage : Int)
  | initialValueTooHigh (incrementBy maxRequests : Int)
  | tooManyRequests (usage : Int)
deriving DecidableEq, Repr

/-- `RateLimit.increment_usage(increment_by)`:
raises `InitialValueTooHigh` when `increment_by > max_requests` (before
touching the store); otherwise runs the increment script and raises
`TooManyRequests` when the post-increment value exceeds `max_requests`
(the increment is already committed when it raises). -/
def increment_usage (maxRequests expire incrementBy : Int) (s : Store) :
    IncrementResult × Store :=
  if maxRequests < incrementBy then
    (.initialValueTooHigh incrementBy maxRequests, s)
  else
    let r := incrementScript expire incrementBy s
    if maxRequests < r.current then
      (.tooManyRequests r.current, r.store)
    else
      (.ok r.current, r.store)

/-- `RateLimit.get_wait_time`, as a function of the result of
`redis.pttl(key)` (an integer: remaining TTL in milliseconds, or the
sentinels −1 "no expiry" / −2 "key absent") and the store state.
The Python line `ttl = ttl / 1000.0 if ttl else float(self._expire)` tests
the integer for truthiness, i.e. substitutes `expire` only when the pttl
result is exactly 0.  Python float arithmetic is modelled over `ℚ`;
a division by zero (`ZeroDivisionError`) is modelled as `none`. -/
def get_wait_time (maxRequests expire pttl : Int) (s : Store) : Option ℚ :=
  let ttl : ℚ := if pttl = 0 then (expire : ℚ) else (pttl : ℚ) / 1000
  let usage := get_usage s
  if has_been_reached maxRequests s then
    if maxRequests = 0 then none
    else
      let time_elapsed : ℚ := (expire : ℚ) - ttl
      let usage_ratio : ℚ := (usage : ℚ) / (maxRequests : ℚ)
      let seconds_per_usage : ℚ := (expire : ℚ) * usage_ratio
      some (seconds_per_usage - time_elapsed)
  else if usage = 0 then
    some 0
  else if maxRequests - usage = 0 then
    none
  else
    some (ttl / ((maxRequests : ℚ) - (usage : ℚ)))

/-- Run the increment script once per amount in the list, left to right,
recording for each execution whether it armed the TTL. -/
def runIncrements (expire : Int) : List Int → Store → List Bool × Store
  | [], s => ([], s)
  | a :: as, s =>
    let r := incrementScript expire a s
    let (flags, s') := runIncrements expire as r.store
    (r.armedTTL :: flags, s')

/-- `RateLimit.__init__`: `"rate_limit:{0}_{1}".format(resource, client)`. -/
def rate_limit_key (resource client : String) : String :=
  "rate_limit:" ++ resource ++ "_" ++ client

/-- The value returned by the increment script is the old counter (0 when the
key is absent) plus the amount. -/
theorem incrementScript_current (expire amount : Int) (s : Store) :
    (incrementScript expire amount s).current = s.counter.getD 0 + amount := by
  simp only [incrementScript]
  split <;> rfl

/-- After the increment script the key holds the incremented value. -/
theorem incrementScript_counter (expire amount : Int) (s : Store) :
    (incrementScript expire amount s).store.counter
      = some (s.counter.getD 0 + amount) := by
  simp only [incrementScript]
  split <;> rfl

/-- The script arms the TTL exactly when the post-increment value equals the
amount, i.e. when the counter stood at 0 (or the key was absent). -/
theorem incrementScript_armedTTL (expire amount : Int) (s : Store) :
    (incrementScript expire amount s).armedTTL
      = decide (s.counter.getD 0 + amount = amount) := by
  simp only [incrementScript]
  split <;> simp_all

/-- Claim C1 (evaluation): `increment_usage` performs no `amount <= 0` check,
contrary to the claim.  `increment_usage(0)` at usage 5 returns `ok 5`
(no exception), and `increment_usage(-5)` on an absent bucket returns
normally and changes `get_usage()` from 0 to −5. -/
theorem c1_nonpositive_increment_not_rejected :
    (increment_usage 10 1 0 ⟨some 5, some 1⟩).1 = .ok 5 ∧
    (increment_usage 10 1 (-5) emptyStore).1 = .ok (-5) ∧
    get_usage (increment_usage 10 1 (-5) emptyStore).2 = -5 := by
  decide

/-- Claim C4: for every `amount > max_requests`, `increment_usage(amount)`
raises `InitialValueTooHigh` before touching the store: the result is the
exception and the store is returned exactly unchanged, so `get_usage()` is
unchanged by the call. -/
theorem c4_increment_exceeding_limit_rejected
    (maxRequests expire amount : Int) (s : Store)
    (h : maxRequests < amount) :
    increment_usage maxRequests expire amount s =
      (.initialValueTooHigh amount maxRequests, s) := by
  unfold increment_usage
  rw [if_pos h]

/-- Witness for C4: `increment_usage(11)` with `max_requests = 10` on the
absent bucket raises and leaves the store untouched. -/
theorem c4_witness :
    increment_usage 10 1 11 emptyStore = (.initialValueTooHigh 11 10, emptyStore) :=
  c4_increment_exceeding_limit_rejected 10 1 11 emptyStore (by decide)

/-- Claim C2: whenever the post-increment counter value strictly exceeds
`max_requests` (and the call is not rejected up front), `increment_usage`
raises `TooManyRequests` carrying the post-increment value, and the increment
stays committed: `get_usage()` on the resulting store is the full overshot
sum, never a rolled-back value. -/
theorem c2_overflow_signalled_and_committed
    (maxRequests expire amount : Int) (s : Store)
    (h1 : amount ≤ maxRequests) (h2 : maxRequests < get_usage s + amount) :
    (increment_usage maxRequests expire amount s).1
      = .tooManyRequests (get_usage s + amount) ∧
    get_usage (increment_usage maxRequests expire amount s).2
      = get_usage s + amount := by
  have h1' : ¬ maxRequests < amount := not_lt.mpr h1
  have h2' : maxRequests < s.counter.getD 0 + amount := h2
  unfold increment_usage
  rw [if_neg h1']
  simp only [incrementScript_current, if_pos h2']
  exact ⟨rfl, by simp [get_usage, incrementScript_counter]⟩

/-- Witness for C2: at `max_requests = 10`, incrementing by 1 from usage 10
raises `TooManyRequests 11` and leaves `get_usage()` at 11. -/
theorem c2_witness :
    (increment_usage 10 1 1 ⟨some 10, some 1⟩).1
      = .tooManyRequests (get_usage ⟨some 10, some 1⟩ + 1) ∧
    get_usage (increment_usage 10 1 1 ⟨some 10, some 1⟩).2
      = get_usage ⟨some 10, some 1⟩ + 1 :=
  c2_overflow_signalled_and_committed 10 1 1 ⟨some 10, some 1⟩
    (by decide) (by decide)

/-- In a store whose counter is already positive, a run of strictly positive
increments never arms the TTL. -/
theorem runIncrements_positive_no_arm (expire : Int) (as : List Int) (s : Store)
    (hs : 0 < get_usage s) (ha : ∀ a ∈ as, 0 < a) :
    (runIncrements expire as s).1 = List.replicate as.length false := by
  induction as generalizing s with
  | nil => rfl
  | cons a as ih =>
    have hpos : 0 < a := ha a (by simp)
    have hs' : 0 < get_usage s := hs
    simp only [get_usage] at hs'
    have hne : ¬ s.counter.getD 0 + a = a := by omega
    have hstep : incrementScript expire a s
        = { current := s.counter.getD 0 + a, armedTTL := false
            store := { counter := some (s.counter.getD 0 + a), ttl := s.ttl } } := by
      simp only [incrementScript]
      rw [if_neg hne]
    simp only [runIncrements, hstep, List.length_cons, List.replicate_succ]
    have hrec := ih { counter := some (s.counter.getD 0 + a), ttl := s.ttl }
      (by simp [get_usage]; omega) (fun b hb => ha b (by simp [hb]))
    simp [hrec]

/-- Claim C3: the increment script arms the key's TTL if and only if the
counter value immediately after the increment equals the increment amount;
consequently, for every nonempty sequence of strictly positive increments run
from a bucket at usage 0 (absent or zero), exactly the first increment arms
the TTL and no later increment in the sequence does. -/
theorem c3_ttl_armed_exactly_once :
    (∀ (expire amount : Int) (s : Store),
      (incrementScript expire amount s).armedTTL = true
        ↔ (incrementScript expire amount s).current = amount) ∧
    (∀ (expire : Int) (amounts : List Int) (s : Store),
      get_usage s = 0 → (∀ a ∈ amounts, 0 < a) → amounts ≠ [] →
      (runIncrements expire amounts s).1
        = true :: List.replicate (amounts.length - 1) false) := by
  constructor
  · intro expire amount s
    simp only [incrementScript]
    split <;> simp_all
  · intro expire amounts s h0 ha hne
    match amounts, hne with
    | a :: as, _ =>
      have hpos : 0 < a := ha a (by simp)
      have h0' : s.counter.getD 0 = 0 := h0
      have hstep : incrementScript expire a s
          = { current := a, armedTTL := true
              store := { counter := some a, ttl := some expire } } := by
        simp [incrementScript, h0']
      simp only [runIncrements, hstep, List.length_cons, Nat.add_sub_cancel]
      have hrec := runIncrements_positive_no_arm expire as
        { counter := some a, ttl := some expire }
        (by simpa [get_usage] using hpos) (fun b hb => ha b (by simp [hb]))
      simp [hrec]

/-- Witness for C3: three increments of 1 from the absent bucket arm the TTL
on the first increment only. -/
theorem c3_witness :
    (runIncrements 1 [1, 1, 1] emptyStore).1
      = true :: List.replicate (([1, 1, 1] : List Int).length - 1) false :=
  c3_ttl_armed_exactly_once.2 1 [1, 1, 1] emptyStore rfl (by decide) (by decide)

/-- Claim C5 (evaluation): the sentinel returned by the TTL lookup is NOT
substituted by `window_seconds`.  With `max_requests = 10`,
`window_seconds = 1`, usage 11 and `pttl` returning the sentinel −2, the code
computes `ttl = -2/1000` and returns `11/10 - (1 - (-2/1000)) = 49/500`;
substituting `window_seconds` (which the code does only when the pttl result
is exactly 0) would give `11/10`. -/
theorem c5_sentinel_enters_arithmetic :
    get_wait_time 10 1 (-2) ⟨some 11, some 1⟩ = some (49 / 500) ∧
    get_wait_time 10 1 0 ⟨some 11, some 1⟩ = some (11 / 10) ∧
    ((49 : ℚ) / 500) ≠ 11 / 10 := by
  refine ⟨?_, ?_, by norm_num⟩ <;>
    · simp only [get_wait_time, has_been_reached, get_usage]
      norm_num

/-- Claim C6 (evaluation): with `max_requests = 10`, `window_seconds = 1` and
the bucket absent (usage 0, `pttl` returning the absent-key sentinel −2),
`get_wait_time()` returns 0 — not 1/10 as the claim (and the repository's own
test `test_wait_time_limit_expired`) states. -/
theorem c6_wait_time_absent_bucket_is_zero :
    get_wait_time 10 1 (-2) emptyStore = some 0 := by
  decide

/-- Claim C7: whenever the limit has not been reached and usage is exactly 0,
`get_wait_time()` returns 0. -/
theorem c7_wait_time_zero_usage
    (maxRequests expire pttl : Int) (s : Store)
    (h0 : get_usage s = 0) (h1 : get_usage s < maxRequests) :
    get_wait_time maxRequests expire pttl s = some 0 := by
  have hr : has_been_reached maxRequests s = false := by
    simp only [has_been_reached, decide_eq_false_iff_not, not_le]
    exact h1
  simp [get_wait_time, hr, h0]

/-- Witness for C7: usage 0 below the limit gives wait time 0. -/
theorem c7_witness : get_wait_time 10 1 500 ⟨some 0, none⟩ = some 0 :=
  c7_wait_time_zero_usage 10 1 500 ⟨some 0, none⟩ rfl (by decide)

/-- Claim C8: whenever `has_been_reached()` is true (and the pttl result is a
nonzero number of milliseconds, so that `remaining_ttl_seconds = pttl/1000`
is what enters the formula, and `max_requests` is nonzero so the division is
defined), `get_wait_time()` returns
`window_seconds * (usage / max_requests) - (window_seconds - remaining_ttl_seconds)`. -/
theorem c8_wait_time_after_limit_reached
    (maxRequests expire pttl : Int) (s : Store)
    (hm : maxRequests ≠ 0) (hr : has_been_reached maxRequests s = true)
    (hp : pttl ≠ 0) :
    get_wait_time maxRequests expire pttl s
      = some ((expire : ℚ) * ((get_usage s : ℚ) / (maxRequests : ℚ))
          - ((expire : ℚ) - (pttl : ℚ) / 1000)) := by
  simp [get_wait_time, hr, hm, hp]

/-- Witness for C8: with `max_requests = 10`, `window_seconds = 1`, usage
exactly 10 and remaining TTL the full window (1000 ms), the wait time is the
whole window: 1 second. -/
theorem c8_witness : get_wait_time 10 1 1000 ⟨some 10, some 1⟩ = some 1 := by
  have h := c8_wait_time_after_limit_reached 10 1 1000 ⟨some 10, some 1⟩
    (by decide) (by decide) (by decide)
  rw [h]
  norm_num [get_usage]

/-- Claim C9 (counterexample): the bucket key derivation is NOT injective on
`(resource, client)`: the distinct pairs `("a_b", "c")` and `("a", "b_c")`
derive the same key `"rate_limit:a_b_c"` and therefore share a counter. -/
theorem c9_key_collision :
    rate_limit_key "a_b" "c" = rate_limit_key "a" "b_c" ∧
    ("a_b", "c") ≠ (("a", "b_c") : String × String) := by
  exact ⟨rfl, by decide⟩

/-- Claim C9 (amended): the key derivation is deterministic but only
injective in the client for a fixed resource: two clients of the same
resource that derive the same bucket key are equal. -/
theorem c9_key_injective_for_fixed_resource
    (resource c1 c2 : String)
    (h : rate_limit_key resource c1 = rate_limit_key resource c2) :
    c1 = c2 := by
  have hd := congrArg String.data h
  simp only [rate_limit_key, String.data_append, List.append_assoc] at hd
  exact String.ext
    (List.append_cancel_left (List.append_cancel_left (List.append_cancel_left hd)))

/-- Witness for the amended C9. -/
theorem c9_witness :
    rate_limit_key "r" "a" = rate_limit_key "r" "a" ∧ ("a" : String) = "a" :=
  ⟨rfl, c9_key_injective_for_fixed_resource "r" "a" "a" rfl⟩

/-- Claim C10: when the limit has not been reached, `get_wait_time()` never
divides by zero (it returns an actual value): in the final branch the divisor
`max_requests - usage` is strictly positive because that branch is only
reachable when `get_usage() < max_requests`. -/
theorem c10_no_division_by_zero
    (maxRequests expire pttl : Int) (s : Store)
    (h : has_been_reached maxRequests s = false) :
    (get_wait_time maxRequests expire pttl s).isSome = true := by
  have hlt : get_usage s < maxRequests := by
    simpa [has_been_reached, decide_eq_false_iff_not, not_le] using h
  by_cases h0 : get_usage s = 0
  · simp [get_wait_time, h, h0]
  · have hne : ¬ maxRequests - get_usage s = 0 := by omega
    simp [get_wait_time, h, h0, hne]

/-- Witness for C10: usage 3 of 10 with 500 ms remaining yields a value. -/
theorem c10_witness : (get_wait_time 10 1 500 ⟨some 3, some 1⟩).isSome = true :=
  c10_no_division_by_zero 10 1 500 ⟨some 3, some 1⟩ (by decide)
